import Mathlib

set_option maxRecDepth 8000

/-!
# Verification of the color-byte-code codec (`src/utils/colorByteCodeUtils.ts`)

Shallow embedding of the codec from `colorByteCodeUtils.ts`:

* the quantizer (`numToColor`, `colorToNum`, `getNearIndex`),
* the symbol-grid codec (`BASE64_TABLE`, `base64CharToNum`, `numToBase64Char`,
  `base64StringToColors`, `colorsToBase64String`),
* the framing layout of `drawColorByteCodeBlock` (block-sequence assembly) and
  the extraction slicing of `readColorByteCode`,
* the retrying text decoder `base64ToObj`,
* the domain/wire remap `toData` / `fromData` and the decode orchestration
  `colorByteCodeToData`.

Modelling conventions:

* JavaScript numbers are modelled as exact fractions (`JsQ`, an integer
  numerator/denominator pair with kernel-computable operations); every number
  the codec manipulates (channel values, block widths, sample coordinates,
  the `255/3` quantization step) is an exact dyadic-or-small fraction, so no
  floating-point rounding is observable at the points the claims touch.
  `Math.round` is `jsRound` (JS rounds halves toward positive infinity).
* Integer-valued quantities (symbols, channel values, block counts, indices)
  are `Int`/`Nat`; the JS `%` operator on possibly negative integers is
  `Int.tmod` (JS `%` truncates) and `Math.floor (a / b)` is `Int.fdiv`.
* JS strings manipulated by the codec are `List Char`; thrown `Error` values
  are `JsError.thrown msg` with the exact source message, and a JS `TypeError`
  raised by accessing a property of `undefined` is `JsError.typeError`.
* Dynamically typed record fields (the boolean/number flags and the hash key)
  are `JsVal`.
* The external collaborators (`window.atob` + msgpack `decode`) are a
  parameter `dec : List Char → Option Wire` of the decoding pipeline.
-/

/-- A JS number, modelled as an exact fraction `num / den`.  All fractions
built by the development keep `den` nonnegative (casts have `den = 1`,
products of nonnegative denominators stay nonnegative, and division
sign-normalizes), which is what the comparison operators assume. -/
structure JsQ where
  num : Int
  den : Int
deriving DecidableEq

instance : IntCast JsQ := ⟨fun n => ⟨n, 1⟩⟩
instance : NatCast JsQ := ⟨fun n => ⟨(n : Int), 1⟩⟩
instance (n : Nat) : OfNat JsQ n := ⟨⟨(n : Int), 1⟩⟩
instance : Add JsQ := ⟨fun a b => ⟨a.num * b.den + b.num * a.den, a.den * b.den⟩⟩
instance : Sub JsQ := ⟨fun a b => ⟨a.num * b.den - b.num * a.den, a.den * b.den⟩⟩
instance : Mul JsQ := ⟨fun a b => ⟨a.num * b.num, a.den * b.den⟩⟩
instance : Neg JsQ := ⟨fun a => ⟨-a.num, a.den⟩⟩

/-- Division; the result's denominator is sign-normalized so that dividing by
a positive value keeps the denominator nonnegative. -/
instance : Div JsQ :=
  ⟨fun a b =>
    let n := a.num * b.den
    let d := a.den * b.num
    if d < 0 then ⟨-n, -d⟩ else ⟨n, d⟩⟩

/-- Comparison by cross-multiplication (sound for nonnegative denominators). -/
def JsQ.le (a b : JsQ) : Prop := a.num * b.den ≤ b.num * a.den

def JsQ.lt (a b : JsQ) : Prop := a.num * b.den < b.num * a.den

instance : LE JsQ := ⟨JsQ.le⟩
instance : LT JsQ := ⟨JsQ.lt⟩

instance (a b : JsQ) : Decidable (a ≤ b) :=
  inferInstanceAs (Decidable (a.num * b.den ≤ b.num * a.den))

instance (a b : JsQ) : Decidable (a < b) :=
  inferInstanceAs (Decidable (a.num * b.den < b.num * a.den))

/-- JS `Math.abs` on an exact fraction (`Int.natAbs` keeps the definition
kernel-computable). -/
def JsQ.abs (a : JsQ) : JsQ := ⟨(a.num.natAbs : Int), (a.den.natAbs : Int)⟩

/-- JS `Math.round`: round half toward positive infinity,
`⌊q + 1/2⌋ = ⌊(2 num + den) / (2 den)⌋` for a nonnegative denominator. -/
def jsRound (q : JsQ) : Int :=
  Int.fdiv (2 * q.num + q.den) (2 * q.den)

/-- An RGB pixel `[r, g, b]`. Channel values are integers; out-of-gamut values
(negative, produced for out-of-alphabet characters) are representable. -/
abbrev Pixel : Type := Int × Int × Int

def R_CHANNEL_PARTITION : Nat := 4
def G_CHANNEL_PARTITION : Nat := 4
def B_CHANNEL_PARTITION : Nat := 4

/-- The 65-entry table `'ABC…xyz0123456789+/='.split('')` from the source:
64 data characters plus the padding sentinel at index 64. -/
def BASE64_TABLE : List Char :=
  "ABCDEFGHIJKLMNOPQRSTUVWXYZabcdefghijklmnopqrstuvwxyz0123456789+/=".toList

/-- `base64CharToNum`: `BASE64_TABLE.findIndex((v) => v === char)`;
`-1` when the character is not in the table. -/
def base64CharToNum (char : Char) : Int :=
  match BASE64_TABLE.findIdx? (fun v => v == char) with
  | some i => (i : Int)
  | none => -1

/-- `numToColor`: decompose `code` into three base-4 digits (blue first) and
scale each by `255 / (partition - 1) = 85`.  JS `%` is truncating remainder
(`Int.tmod`) and `Math.floor(code / 4)` is flooring division (`Int.fdiv`),
which matters for the negative `code = -1` produced by unknown characters. -/
def numToColor (code : Int) : Pixel :=
  let bCode := code.tmod (B_CHANNEL_PARTITION : Int)
  let code1 := code.fdiv (B_CHANNEL_PARTITION : Int)
  let gCode := code1.tmod (G_CHANNEL_PARTITION : Int)
  let code2 := code1.fdiv (G_CHANNEL_PARTITION : Int)
  let rCode := code2.tmod (R_CHANNEL_PARTITION : Int)
  (rCode * (255 / ((R_CHANNEL_PARTITION : Int) - 1)),
   gCode * (255 / ((G_CHANNEL_PARTITION : Int) - 1)),
   bCode * (255 / ((B_CHANNEL_PARTITION : Int) - 1)))

/-- One iteration of the `getNearIndex` scan.  State: current best index,
its distance, and whether the loop has hit `break`.  The source continues
while `diff <= preDiff` and breaks at the first strictly larger distance. -/
def getNearStep (v step : JsQ) (st : Nat × JsQ × Bool) (i : Nat) : Nat × JsQ × Bool :=
  match st with
  | (ret, preDiff, broken) =>
    if broken then (ret, preDiff, true)
    else
      let diff := JsQ.abs ((i : JsQ) * step - v)
      if preDiff < diff then (ret, preDiff, true)
      else (i, diff, false)

/-- `getNearIndex(v, partition, max = 255)`: scan `i = 0 .. partition-1` for
the quantization level `i * (max/(partition-1))` nearest to `v`, updating the
best index whenever the distance is `<=` the previous best and breaking at the
first strictly larger distance.  Every call site uses the default `max = 255`. -/
def getNearIndex (v : JsQ) (partition : Nat) : Nat :=
  let step : JsQ := 255 / ((partition : JsQ) - 1)
  ((List.range partition).foldl (getNearStep v step) (0, 255, false)).1

/-- `colorToNum`: per-channel nearest quantization index, packed base-4
(`r` highest). -/
def colorToNum (color : Pixel) : Nat :=
  let ret := getNearIndex (color.1 : JsQ) R_CHANNEL_PARTITION
  let ret1 := ret * G_CHANNEL_PARTITION + getNearIndex (color.2.1 : JsQ) G_CHANNEL_PARTITION
  ret1 * B_CHANNEL_PARTITION + getNearIndex (color.2.2 : JsQ) B_CHANNEL_PARTITION

/-- `numToBase64Char`: `BASE64_TABLE[index]`.  `colorToNum` always yields an
index in `[0, 63]`, so the out-of-range default is never reached. -/
def numToBase64Char (index : Nat) : Char :=
  BASE64_TABLE.getD index '#'

/-- `base64StringToColors`: map each character of the text to a pixel. -/
def base64StringToColors (str : List Char) : List Pixel :=
  str.map (fun v => numToColor (base64CharToNum v))

/-- `colorsToBase64String`: map each pixel back to a character. -/
def colorsToBase64String (colors : List Pixel) : List Char :=
  colors.map (fun c => numToBase64Char (colorToNum c))

/-! ## Errors, dynamic values, and the wire/domain records -/

instance {ε α : Type} [DecidableEq ε] [DecidableEq α] : DecidableEq (Except ε α) :=
  fun a b =>
    match a, b with
    | .ok x, .ok y =>
      if h : x = y then isTrue (by rw [h]) else isFalse (fun hh => h (Except.ok.inj hh))
    | .error x, .error y =>
      if h : x = y then isTrue (by rw [h]) else isFalse (fun hh => h (Except.error.inj hh))
    | .ok _, .error _ => isFalse Except.noConfusion
    | .error _, .ok _ => isFalse Except.noConfusion

/-- A JavaScript exception: either an explicitly thrown `Error` with its
message, or the `TypeError` raised by reading a property of `undefined`. -/
inductive JsError where
  | thrown (msg : String)
  | typeError
deriving DecidableEq

/-- The message of the error thrown by `base64ToObj` on unrecoverable input. -/
def msgMalformed : String := "Couldnt Find ColorByteCode."

/-- The message of the error thrown by `fromData` on failed validation. -/
def msgInvalid : String := "Invalid ColorByteCode Type."

/-- A dynamically typed JS value, as stored in the loosely typed record
fields (`o.s`, `o.k`, `hashKey`, ...). -/
inductive JsVal where
  | num (n : Int)
  | str (s : String)
  | bool (b : Bool)
  | null
deriving DecidableEq

/-- JS truthiness of a `JsVal` (used by `cond ? a : b` on a dynamic value). -/
def jsTruthy : JsVal → Bool
  | .num n => n != 0
  | .str s => s != ""
  | .bool b => b
  | .null => false

/-- Modelled from the spec: a rectangular area record (`RectArea` from
`types.ts`, which is not under `src/`); the codec carries areas opaquely,
so only their identity matters. -/
structure RectArea where
  x : Int
  y : Int
  w : Int
  h : Int
deriving DecidableEq

/-- Modelled from the spec: the `DEFAULT_KEY` configuration constant from
`definition.ts` (not under `src/`).  `fromData` substitutes it for any
encoded non-null hash key; its concrete value is irrelevant to the codec. -/
def DEFAULT_KEY : String := "DEFAULT_KEY"

/-- The domain-record options (`EncodeOptions` from `types.ts`, shaped per
the spec: grid size, three boolean flags, optional hash key).  Fields are
dynamic values because `fromData` stores raw wire numbers in them. -/
structure EncodeOptions where
  gridSize : JsVal
  isSwap : JsVal
  isRotate : JsVal
  isNega : JsVal
  hashKey : JsVal
deriving DecidableEq

/-- The `o` sub-record of the wire object built by `toData`. -/
structure WireOpts where
  k : JsVal
  s : JsVal
  n : JsVal
  g : JsVal
  r : JsVal
deriving DecidableEq

/-- The wire object (msgpack payload).  A decoded object may be missing any
of the three fields, hence the `Option`s. -/
structure Wire where
  s : Option (List Int)
  o : Option WireOpts
  c : Option (List RectArea)
deriving DecidableEq

/-- The record returned by `fromData`: `{ encodeOptions, areas, size }`. -/
structure DecodedRecord where
  encodeOptions : EncodeOptions
  areas : List RectArea
  size : List Int
deriving DecidableEq

/-- `toData(encodeOptions, areas, size)`: build the compact wire object.
The flags are sent as the numbers `1`/`0`; only the presence of `hashKey`
(JS `!= null`) is sent in `k`. -/
def toData (encodeOptions : EncodeOptions) (areas : List RectArea)
    (size : List Int) : Wire :=
  { s := some size
    o := some
      { k := .num (if encodeOptions.hashKey ≠ .null then 1 else 0)
        s := .num (if jsTruthy encodeOptions.isSwap then 1 else 0)
        n := .num (if jsTruthy encodeOptions.isNega then 1 else 0)
        g := encodeOptions.gridSize
        r := .num (if jsTruthy encodeOptions.isRotate then 1 else 0) }
    c := some areas }

/-- `fromData(data)`: remap the wire object to the domain record.  Reading
`data.o.g` with `data.o` undefined raises a `TypeError` before any
validation runs; the validation (`!result.encodeOptions` is never true
because the object literal is always truthy) then rejects an absent or
empty area list, an absent size, and a size whose length is not 3, with
the `Invalid ColorByteCode Type.` error.  The raw wire values (numbers,
not booleans) are stored in the option flags, and a truthy `k` flag is
replaced by the constant `DEFAULT_KEY`. -/
def fromData (data : Wire) : Except JsError DecodedRecord :=
  match data.o with
  | none => .error .typeError
  | some o =>
    let encodeOptions : EncodeOptions :=
      { gridSize := o.g
        isSwap := o.s
        isRotate := o.r
        isNega := o.n
        hashKey := if jsTruthy o.k then .str DEFAULT_KEY else .null }
    match data.c with
    | none => .error (.thrown msgInvalid)
    | some areas =>
      if areas.length = 0 then .error (.thrown msgInvalid)
      else
        match data.s with
        | none => .error (.thrown msgInvalid)
        | some size =>
          if size.length ≠ 3 then .error (.thrown msgInvalid)
          else .ok { encodeOptions := encodeOptions, areas := areas, size := size }

/-! ## The retrying text decoder `base64ToObj` -/

/-- The loop body of `base64ToObj` (source lines 96–128).  `dec` is the
external decoding collaborator (`window.atob` followed by msgpack `decode`),
which is outside `src/`; `fuel` counts the remaining iterations of
`while (retry < 4)`, so the function is entered with `fuel = 4`, `retry = 0`.
On a failed attempt the character `retry + 1` positions from the end must
literally be `'A'` (otherwise the `Couldnt Find ColorByteCode.` error is
thrown; the `4 < retry` recheck from the source is dead code), and the last
`retry + 1` characters are replaced by `'='` sentinels before retrying.
Falling out of the loop returns JS `undefined`, modelled as `.ok none`. -/
def base64ToObjLoop (dec : List Char → Option Wire) :
    Nat → Nat → List Char → Except JsError (Option Wire)
  | 0, _, _ => .ok none
  | fuel + 1, retry, v =>
    match dec v with
    | some ret => .ok (some ret)
    | none =>
      if (v.drop (v.length - (retry + 1))).take 1 ≠ ['A'] then
        .error (.thrown msgMalformed)
      else if 4 < retry then
        .error (.thrown msgMalformed)
      else
        base64ToObjLoop dec fuel (retry + 1)
          (v.take (v.length - retry - 1) ++ List.replicate (retry + 1) '=')

/-- `base64ToObj`: try to decode, repairing up to three trailing `'A'`
characters into `'='` padding sentinels. -/
def base64ToObj (dec : List Char → Option Wire) (v : List Char) :
    Except JsError (Option Wire) :=
  base64ToObjLoop dec 4 0 v

/-! ## The raster, its reader, and the framing layout -/

/-- A pixel raster (the part of JS `ImageData` the codec reads): row-major
pixels, index `x + y * width`, top row first. -/
structure ImageData where
  width : Nat
  height : Nat
  data : List Pixel

/-- `getPixelColor(x, y)` from the `ImageData` prototype extension:
round both coordinates, then read the pixel at `round x + round y * width`.
Out-of-range reads (which return `undefined` components in JS) are modelled
as black; no raster in this development reads out of range. -/
def ImageData.getPixelColor (self : ImageData) (x y : JsQ) : Pixel :=
  let index := jsRound x + jsRound y * (self.width : Int)
  if h : 0 ≤ index ∧ index.toNat < self.data.length then
    self.data.get ⟨index.toNat, h.2⟩
  else (0, 0, 0)

/-- The footer/header stripping at the end of `readColorByteCode` (source
lines 233–245): one-row payloads are `raw[4 .. 4+blockCount)`; longer
payloads drop the 4 header cells and the footer cell at column
`blockCountX - 1` of row 0. -/
def extractMainColors (colors : List Pixel) (blockCount blockCountX : Nat) :
    List Pixel :=
  if blockCount + 4 < blockCountX then
    (colors.drop 4).take blockCount
  else
    (colors.take (blockCountX - 1)).drop 4 ++ colors.drop blockCountX

/-- `readColorByteCode(imageData)`: recover the geometry from the bottom
corners, sample the version block (read but never checked — matching the
source, which only comments that a future version would branch here),
read the payload length, sample all `blockCount + 5` block centers, and
strip the framing. -/
def readColorByteCode (imageData : ImageData) : List Pixel :=
  let lNum := colorToNum (imageData.getPixelColor 0 ((imageData.height : JsQ) - 1))
  let rNum := colorToNum (imageData.getPixelColor ((imageData.width : JsQ) - 1)
    ((imageData.height : JsQ) - 1))
  let blockCountX := lNum * 64 + rNum
  let blockWidth : JsQ := (imageData.width : JsQ) / (blockCountX : JsQ)
  let _version := colorToNum (imageData.getPixelColor (blockWidth + blockWidth / 2)
    ((imageData.height : JsQ) - blockWidth / 2))
  let blockCountData :=
    [colorToNum (imageData.getPixelColor (blockWidth * 2 + blockWidth / 2)
      ((imageData.height : JsQ) - blockWidth / 2)),
     colorToNum (imageData.getPixelColor (blockWidth * 3 + blockWidth / 2)
      ((imageData.height : JsQ) - blockWidth / 2))]
  let blockCount := blockCountData.getD 0 0 + blockCountData.getD 1 0 * 64
  let colors := (List.range (blockCount + 5)).map (fun i =>
    imageData.getPixelColor
      (((i % blockCountX : Nat) : JsQ) * blockWidth + blockWidth / 2)
      ((imageData.height : JsQ) - ((i / blockCountX : Nat) : JsQ) * blockWidth
        - blockWidth / 2))
  extractMainColors colors blockCount blockCountX

/-- The block-sequence assembly of `drawColorByteCodeBlock` (source lines
131–168), before rasterization: prepend the four header blocks
`[blockCountX/64, version 1, length % 64, length / 64]`, then place the
footer block `blockCountX % 64` — padding row 0 with unrendered `null`
placeholder cells (`none`) when the framed payload is short, or splicing
the footer in after column `blockCountX - 2` otherwise.  The rasterization
itself (canvas drawing) is not modelled; this sequence is exactly what the
drawing loop renders, placeholders excepted. -/
def drawColorByteCodeBlock (colorByteCodes : List Pixel) (blockCountX : Nat) :
    List (Option Pixel) :=
  let length := colorByteCodes.length
  let cbc : List (Option Pixel) :=
    some (numToColor ((blockCountX / 64 : Nat) : Int)) ::
    some (numToColor 1) ::
    some (numToColor ((length % 64 : Nat) : Int)) ::
    some (numToColor ((length / 64 : Nat) : Int)) ::
    colorByteCodes.map some
  if cbc.length < blockCountX - 1 then
    (cbc ++ List.replicate (blockCountX - cbc.length - 1) none) ++
      [some (numToColor ((blockCountX % 64 : Nat) : Int))]
  else
    cbc.take (blockCountX - 1) ++
      some (numToColor ((blockCountX % 64 : Nat) : Int)) :: cbc.drop (blockCountX - 1)

/-- `colorByteCodeToData(imageData)`: the decode pipeline.  `dec` is the
external msgpack/atob collaborator.  When `base64ToObj` falls through its
loop and returns `undefined`, `fromData(undefined)` raises a `TypeError`
by reading `data.o`. -/
def colorByteCodeToData (dec : List Char → Option Wire) (imageData : ImageData) :
    Except JsError DecodedRecord :=
  let colors := readColorByteCode imageData
  let base64String := colorsToBase64String colors
  match base64ToObj dec base64String with
  | .error e => .error e
  | .ok none => .error .typeError
  | .ok (some data) => fromData data

/-! ## Spec-side descriptions and concrete inputs used by the theorems -/

/-- The framed sequence before footer placement, as the spec describes it:
the four header blocks `blockCountX/64`, version `1`, `length % 64`,
`length / 64` followed by the data blocks. -/
def headerAndData (data : List Pixel) (blockCountX : Nat) : List (Option Pixel) :=
  some (numToColor ((blockCountX / 64 : Nat) : Int)) ::
  some (numToColor 1) ::
  some (numToColor ((data.length % 64 : Nat) : Int)) ::
  some (numToColor ((data.length / 64 : Nat) : Int)) ::
  data.map some

/-- The footer block `blockCountX % 64`. -/
def footerBlock (blockCountX : Nat) : Option Pixel :=
  some (numToColor ((blockCountX % 64 : Nat) : Int))

/-- Modelled from the spec: an external decode attempt (`window.atob` plus
msgpack `decode`, both outside `src/`) that fails on the candidate strings it
is offered.  Every string passed to it in the theorems below has a length
that is not a multiple of 4, which standard base64 rejects as a
`DecodeError`. -/
def decNone : List Char → Option Wire := fun _ => none

/-- The wire object used by the version-mismatch example. -/
def wireV : Wire :=
  { s := some [1, 2, 3]
    o := some { k := .num 1, s := .num 0, n := .num 0, g := .num 8, r := .num 0 }
    c := some [⟨0, 0, 4, 4⟩] }

/-- Modelled from the spec: the external serializer pair, specialized to the
single payload exercised by the version-mismatch example — the text `AAAA`
decodes to `wireV` (a deterministic external codec maps some byte string to
this wire object; `AAAA` is its transport encoding), anything else fails. -/
def decV : List Char → Option Wire := fun v =>
  if v = ['A', 'A', 'A', 'A'] then some wireV else none

/-- The row-0 block symbols of the version-mismatch raster, left to right:
`blockCountX` high digit 0, version 2 (not 1), payload length 4, length high
digit 0, three data symbols 0, and the footer `blockCountX % 64 = 8`. -/
def rowSymsV : List Int := [0, 2, 4, 0, 0, 0, 0, 8]

/-- A 16×4 raster carrying a color byte code with `blockCountX = 8`,
`blockWidth = 2`, version symbol 2, and payload `AAAA` (the fourth data
symbol sits in block row 1, column 0; its rendered color 0 coincides with
the black background).  Pixel rows 2 and 3 are the bottom block row. -/
def imgV : ImageData :=
  { width := 16
    height := 4
    data := (List.range 4).flatMap fun y => (List.range 16).map fun x =>
      if 2 ≤ y then numToColor (rowSymsV.getD (x / 2) 0) else (0, 0, 0) }

/-- The record `fromData` produces for `wireV`. -/
def recV : DecodedRecord :=
  { encodeOptions :=
      { gridSize := .num 8, isSwap := .num 0, isRotate := .num 0,
        isNega := .num 0, hashKey := .str DEFAULT_KEY }
    areas := [⟨0, 0, 4, 4⟩]
    size := [1, 2, 3] }

/-! ## Theorems -/

/-- **C2.** Quantizer round-trip: for every symbol `s` in `[0, 63]`,
converting `s` to a pixel with `numToColor` and back with `colorToNum`
returns `s` exactly. -/
theorem colorToNum_numToColor_roundtrip (s : Nat) (hs : s < 64) :
    colorToNum (numToColor (s : Int)) = s := by
  revert hs
  revert s
  decide

/-- Witness for `colorToNum_numToColorRoundtrip` at the symbol 37. -/
theorem colorToNum_numToColor_roundtrip_witness :
    37 < 64 ∧ colorToNum (numToColor (37 : Int)) = 37 :=
  ⟨by decide, colorToNum_numToColor_roundtrip 37 (by decide)⟩

/-- **C9.** Nearest-level tie-break: for every integer channel value `v` in
`[0, 255]` (the only channel values a raster can produce), the per-channel
index returned by the scanning loop `getNearIndex` minimizes the distance to
the levels `0, 85, 170, 255`, and among equal minimizers it is the largest
index.  The three trailing conjuncts exercise the tie rule at the exactly
equidistant inputs `42.5`, `127.5` and `212.5`: the higher index wins. -/
theorem getNearIndex_nearest :
    (∀ v : Nat, v ≤ 255 → ∀ j : Nat, j < 4 →
      (JsQ.abs (85 * ((getNearIndex (v : JsQ) 4 : Nat) : JsQ) - (v : JsQ)) ≤
        JsQ.abs (85 * (j : JsQ) - (v : JsQ))) ∧
      (JsQ.abs (85 * (j : JsQ) - (v : JsQ)) =
          JsQ.abs (85 * ((getNearIndex (v : JsQ) 4 : Nat) : JsQ) - (v : JsQ)) →
        j ≤ getNearIndex (v : JsQ) 4)) ∧
    getNearIndex ((85 : JsQ) / 2) 4 = 1 ∧
    getNearIndex ((255 : JsQ) / 2) 4 = 2 ∧
    getNearIndex ((425 : JsQ) / 2) 4 = 3 := by
  decide

/-- **C7** (counterexample).  The text-to-colors conversion does not fail on
a character outside the alphabet: the source has no error path at all (and
hence the embedded `base64StringToColors` is a total function); the
out-of-alphabet character `-` is silently converted to the out-of-gamut
pixel `(-85, -85, -85)` instead of raising an `UnknownSymbol` error. -/
theorem base64StringToColors_unknown_silent :
    base64StringToColors ['-'] = [(-85, -85, -85)] := by decide

/-- **C7** (amended).  For every character outside the 65-entry table,
`findIndex` yields `-1` and the conversion silently produces the
out-of-gamut pixel `(-85, -85, -85)`; no error is raised. -/
theorem base64CharToNum_unknown (c : Char) (h : c ∉ BASE64_TABLE) :
    base64CharToNum c = -1 ∧ numToColor (base64CharToNum c) = (-85, -85, -85) := by
  have hfind : BASE64_TABLE.findIdx? (fun v => v == c) = none := by
    rw [List.findIdx?_eq_none_iff]
    intro x hx
    exact beq_false_of_ne (fun hxc => h (hxc ▸ hx))
  have h1 : base64CharToNum c = -1 := by
    unfold base64CharToNum
    rw [hfind]
  exact ⟨h1, by rw [h1]; decide⟩

/-- Witness for `base64CharToNum_unknown` at the character `-`. -/
theorem base64CharToNum_unknown_witness :
    ('-' ∉ BASE64_TABLE) ∧ base64CharToNum '-' = -1 ∧
      numToColor (base64CharToNum '-') = (-85, -85, -85) :=
  ⟨by decide, base64CharToNum_unknown '-' (by decide)⟩

/-- **C10.** The padding sentinel `=` occupies index 64 of the 65-entry
table; through the text-to-colors path it yields the pixel `(0, 0, 0)`,
exactly the pixel of symbol 0 (character `A`); reading that pixel back
produces the character `A`.  Hence rendered `=` padding returns as a
trailing `A` — the corruption the retry loop of `base64ToObj` targets. -/
theorem padding_sentinel_reads_back_as_A :
    BASE64_TABLE.length = 65 ∧
    base64CharToNum '=' = 64 ∧
    base64StringToColors ['='] = [(0, 0, 0)] ∧
    base64StringToColors ['A'] = [(0, 0, 0)] ∧
    colorsToBase64String (base64StringToColors ['=']) = ['A'] := by decide

/-- **C6** (code-bug evaluation).  With an external decoder that rejects
every candidate (each has length 5, an invalid base64 length), the input
`AAAAA` exhausts the initial attempt plus three retries; because the
4th-from-last character is `A`, the loop then substitutes a fourth sentinel
and falls out of `while (retry < 4)`, returning JS `undefined` (`.ok none`)
instead of throwing — the dead `retry > 4` guard shows a throw was intended.
For `AAAAB` the last character is not `A`, and the decoder correctly fails
with the `Couldnt Find ColorByteCode.` error. -/
theorem base64ToObj_exhaustion_returns_undefined :
    base64ToObj decNone ['A', 'A', 'A', 'A', 'A'] = .ok none ∧
    base64ToObj decNone ['A', 'A', 'A', 'A', 'B'] =
      .error (.thrown msgMalformed) := by decide

/-- The round trip of a dynamic flag through `toData` then `fromData`
reproduces the flag exactly when it was already the numeral 0 or 1. -/
lemma flag_num_eq_iff (v : JsVal) :
    JsVal.num (if jsTruthy v then 1 else 0) = v ↔ (v = .num 0 ∨ v = .num 1) := by
  cases v with
  | num n =>
    by_cases h : n = 0
    · simp [jsTruthy, h]
    · have hb : jsTruthy (.num n) = true := by simp [jsTruthy, h]
      rw [hb]
      simp only [if_true, JsVal.num.injEq]
      constructor
      · intro h1
        omega
      · intro h1
        omega
  | str s => by_cases h : s = "" <;> simp [jsTruthy, h]
  | bool b => cases b <;> simp [jsTruthy]
  | null => simp [jsTruthy]

/-- The hash key survives the remap exactly when it was null or already the
default key. -/
lemma hashKey_eq_iff (v : JsVal) :
    (if v ≠ .null then JsVal.str DEFAULT_KEY else JsVal.null) = v ↔
      (v = .null ∨ v = .str DEFAULT_KEY) := by
  by_cases h : v = .null
  · simp [h]
  · simp [h]
    exact eq_comm

/-- **C1** (counterexample).  The remap `fromData (toData …)` inside the
decode pipeline does not reproduce the original record: a record whose
`isSwap` flag is the boolean `true` comes back with the numeral `1` in that
field (`toData` sends flags as `1`/`0` and `fromData` stores the raw wire
numbers), so the decoded record differs from the original. -/
theorem fromData_toData_not_identity :
    fromData (toData
        { gridSize := .num 8, isSwap := .bool true, isRotate := .bool false,
          isNega := .bool false, hashKey := .null }
        [⟨0, 0, 1, 1⟩] [10, 20, 0]) ≠
      .ok { encodeOptions :=
              { gridSize := .num 8, isSwap := .bool true, isRotate := .bool false,
                isNega := .bool false, hashKey := .null }
            areas := [⟨0, 0, 1, 1⟩]
            size := [10, 20, 0] } := by decide

/-- **C1** (amended).  For every record with a non-empty area list and a
3-element size, the remap round trip succeeds and reproduces `areas`,
`size` and `gridSize` exactly, but stores the flags as the numerals `1`/`0`
(by truthiness of the originals) and replaces any non-null hash key by the
fixed `DEFAULT_KEY`; consequently the round trip is the identity exactly
when the flags were already the numerals `0`/`1` and the hash key was null
or the default key. -/
theorem fromData_toData_characterization (opts : EncodeOptions)
    (areas : List RectArea) (size : List Int)
    (hareas : areas ≠ []) (hsize : size.length = 3) :
    fromData (toData opts areas size) = .ok
        { encodeOptions :=
            { gridSize := opts.gridSize
              isSwap := .num (if jsTruthy opts.isSwap then 1 else 0)
              isRotate := .num (if jsTruthy opts.isRotate then 1 else 0)
              isNega := .num (if jsTruthy opts.isNega then 1 else 0)
              hashKey := if opts.hashKey ≠ .null then .str DEFAULT_KEY else .null }
          areas := areas
          size := size } ∧
    (fromData (toData opts areas size) =
        .ok { encodeOptions := opts, areas := areas, size := size } ↔
      ((opts.isSwap = .num 0 ∨ opts.isSwap = .num 1) ∧
       (opts.isRotate = .num 0 ∨ opts.isRotate = .num 1) ∧
       (opts.isNega = .num 0 ∨ opts.isNega = .num 1) ∧
       (opts.hashKey = .null ∨ opts.hashKey = .str DEFAULT_KEY))) := by
  have hlen : areas.length ≠ 0 := fun h => hareas (List.length_eq_zero.mp h)
  have h1 : fromData (toData opts areas size) = .ok
      { encodeOptions :=
          { gridSize := opts.gridSize
            isSwap := .num (if jsTruthy opts.isSwap then 1 else 0)
            isRotate := .num (if jsTruthy opts.isRotate then 1 else 0)
            isNega := .num (if jsTruthy opts.isNega then 1 else 0)
            hashKey := if opts.hashKey ≠ .null then .str DEFAULT_KEY else .null }
        areas := areas
        size := size } := by
    by_cases hk : opts.hashKey = .null <;>
      simp [toData, fromData, hlen, hsize, hk, jsTruthy]
  refine ⟨h1, ?_⟩
  rw [h1]
  obtain ⟨g, sw, ro, ne, hk⟩ := opts
  simp only [Except.ok.injEq, DecodedRecord.mk.injEq, EncodeOptions.mk.injEq,
    and_true, true_and]
  rw [flag_num_eq_iff, flag_num_eq_iff, flag_num_eq_iff, hashKey_eq_iff]

/-- Witness for `fromData_toData_characterization`: a record whose flags are
already numerals and whose hash key is null round-trips to itself. -/
theorem fromData_toData_characterization_witness :
    fromData (toData
        { gridSize := .num 4, isSwap := .num 1, isRotate := .num 0,
          isNega := .num 0, hashKey := .null }
        [⟨1, 2, 3, 4⟩] [5, 6, 7]) =
      .ok { encodeOptions :=
              { gridSize := .num 4, isSwap := .num 1, isRotate := .num 0,
                isNega := .num 0, hashKey := .null }
            areas := [⟨1, 2, 3, 4⟩]
            size := [5, 6, 7] } :=
  (fromData_toData_characterization
      { gridSize := .num 4, isSwap := .num 1, isRotate := .num 0,
        isNega := .num 0, hashKey := .null }
      [⟨1, 2, 3, 4⟩] [5, 6, 7] (by decide) (by decide)).2.mpr (by decide)

/-- **C8** (counterexample).  A wire object whose `o` sub-record is absent
does not fail with the `Invalid ColorByteCode Type.` validation error: the
property access `data.o.g` raises a `TypeError` first. -/
theorem fromData_missing_o_raises_typeError :
    fromData { s := some [1, 2, 3], o := none, c := some [⟨0, 0, 1, 1⟩] } =
        .error .typeError ∧
      JsError.typeError ≠ .thrown msgInvalid := by decide

/-- **C8** (amended).  Decode-side structural validation: an absent `o`
sub-record raises a `TypeError` (not `InvalidPayload`); the remap succeeds
exactly when `o` is present, the area list present and non-empty, and the
size vector present with exactly 3 elements; and every other violation —
absent or empty areas, absent size, wrong-length size — fails with the
`Invalid ColorByteCode Type.` error. -/
theorem fromData_validation_characterization (w : Wire) :
    (fromData w = .error .typeError ↔ w.o = none) ∧
    ((∃ d, fromData w = .ok d) ↔
      (w.o ≠ none ∧ (∃ areas, w.c = some areas ∧ areas ≠ []) ∧
        (∃ size, w.s = some size ∧ size.length = 3))) ∧
    (fromData w = .error (.thrown msgInvalid) ↔
      (w.o ≠ none ∧ ¬((∃ areas, w.c = some areas ∧ areas ≠ []) ∧
        (∃ size, w.s = some size ∧ size.length = 3)))) := by
  rcases w with ⟨s, o, c⟩
  cases o with
  | none => simp [fromData]
  | some o =>
    cases c with
    | none => simp [fromData]
    | some areas =>
      by_cases ha : areas.length = 0
      · have : areas = [] := List.length_eq_zero.mp ha
        subst this
        simp [fromData]
      · have hane : areas ≠ [] := fun h => ha (by simp [h])
        cases s with
        | none => simp [fromData, ha, hane]
        | some size =>
          by_cases hs : size.length = 3 <;> simp [fromData, ha, hane, hs]

/-- Every error `base64ToObjLoop` can produce is the malformed-payload
throw. -/
lemma base64ToObjLoop_error_eq (dec : List Char → Option Wire) :
    ∀ (fuel retry : Nat) (v : List Char) (e : JsError),
      base64ToObjLoop dec fuel retry v = .error e → e = .thrown msgMalformed := by
  intro fuel
  induction fuel with
  | zero =>
    intro retry v e h
    simp [base64ToObjLoop] at h
  | succ n ih =>
    intro retry v e h
    rw [base64ToObjLoop] at h
    cases hdec : dec v with
    | some r => rw [hdec] at h; cases h
    | none =>
      rw [hdec] at h
      by_cases h1 : (v.drop (v.length - (retry + 1))).take 1 ≠ ['A']
      · rw [if_pos h1] at h
        exact (Except.error.inj h).symm
      · rw [if_neg h1] at h
        by_cases h2 : 4 < retry
        · rw [if_pos h2] at h
          exact (Except.error.inj h).symm
        · rw [if_neg h2] at h
          exact ih _ _ _ h

/-- Every error `fromData` can produce is the `TypeError` or the
invalid-payload throw. -/
lemma fromData_error_eq (w : Wire) (e : JsError) (h : fromData w = .error e) :
    e = .typeError ∨ e = .thrown msgInvalid := by
  simp only [fromData] at h
  split at h
  · exact Or.inl (Except.error.inj h).symm
  · split at h
    · exact Or.inr (Except.error.inj h).symm
    · split at h
      · exact Or.inr (Except.error.inj h).symm
      · split at h
        · exact Or.inr (Except.error.inj h).symm
        · split at h
          · exact Or.inr (Except.error.inj h).symm
          · cases h

/-- **C5** (amended).  Decode never fails because of the version symbol:
`readColorByteCode` samples the version block but never checks it (the
source only leaves a comment that a future version would branch there), so
no `UnsupportedVersion` failure exists; every decode failure is the
malformed-payload throw, the invalid-payload throw, or the `TypeError`
produced when the retry loop falls through. -/
theorem decode_error_vocabulary (dec : List Char → Option Wire)
    (img : ImageData) (e : JsError)
    (h : colorByteCodeToData dec img = .error e) :
    e = .thrown msgMalformed ∨ e = .thrown msgInvalid ∨ e = .typeError := by
  simp only [colorByteCodeToData] at h
  split at h
  · rename_i e2 heq
    exact Or.inl ((Except.error.inj h) ▸ base64ToObjLoop_error_eq dec 4 0 _ e2 heq)
  · exact Or.inr (Or.inr (Except.error.inj h).symm)
  · rename_i w heq
    rcases fromData_error_eq w e h with h1 | h1
    · exact Or.inr (Or.inr h1)
    · exact Or.inr (Or.inl h1)

/-- Witness for `decode_error_vocabulary`: decoding the example raster with
an always-failing external codec ends in the fall-through `TypeError`. -/
theorem decode_error_vocabulary_witness :
    JsError.typeError = .thrown msgMalformed ∨
      JsError.typeError = .thrown msgInvalid ∨ JsError.typeError = .typeError :=
  decode_error_vocabulary decNone imgV .typeError (by decide)

/-- **C5** (counterexample).  `imgV` is a raster whose row-0 / column-1
block center — pixel `(3, 3)`, since `blockWidth = 16 / 8 = 2` — decodes to
the symbol 2, not 1; yet decode does not fail with any version error: it
returns the complete record `recV`. -/
theorem version_mismatch_still_decodes :
    colorToNum (imgV.getPixelColor 3 3) = 2 ∧
      colorByteCodeToData decV imgV = .ok recV := by decide

/-- Dropping past an appended prefix and one spliced element. -/
lemma drop_cons_append_of_length {α : Type} (l₁ l₂ : List α) (x : α) (n : Nat)
    (h : l₁.length + 1 = n) : (l₁ ++ x :: l₂).drop n = l₂ := by
  subst h
  rw [List.drop_append 1]
  rfl

/-- Dropping distributes over an appended prefix of known length. -/
lemma drop_append_of_length {α : Type} (l₁ l₂ : List α) (n m : Nat)
    (h : l₁.length + m = n) : (l₁ ++ l₂).drop n = l₂.drop m := by
  subst h
  exact List.drop_append m

/-- The short-payload branch of `drawColorByteCodeBlock`: when header+data
has fewer than `blockCountX - 1` blocks, row 0 is padded with unrendered
placeholder cells and the footer ends the row. -/
lemma drawColorByteCodeBlock_short (data : List Pixel) (bcx : Nat)
    (h : data.length + 4 < bcx - 1) :
    drawColorByteCodeBlock data bcx =
      headerAndData data bcx ++
        List.replicate (bcx - 1 - (data.length + 4)) none ++ [footerBlock bcx] := by
  simp only [drawColorByteCodeBlock, headerAndData, footerBlock, List.length_cons,
    List.length_map]
  split_ifs with hcond
  · rw [show bcx - (data.length + 1 + 1 + 1 + 1) - 1 = bcx - 1 - (data.length + 4)
      from by omega]
  · exact absurd (by omega) hcond

/-- The long-payload branch of `drawColorByteCodeBlock`: the footer is
spliced in as the `blockCountX`-th block. -/
lemma drawColorByteCodeBlock_long (data : List Pixel) (bcx : Nat)
    (h : ¬(data.length + 4 < bcx - 1)) :
    drawColorByteCodeBlock data bcx =
      (headerAndData data bcx).take (bcx - 1) ++
        footerBlock bcx :: (headerAndData data bcx).drop (bcx - 1) := by
  simp only [drawColorByteCodeBlock, headerAndData, footerBlock, List.length_cons,
    List.length_map]
  split_ifs with hcond
  · exact absurd (by omega) h
  · rfl

/-- The header-and-data sequence has `length + 4` blocks. -/
lemma headerAndData_length (data : List Pixel) (bcx : Nat) :
    (headerAndData data bcx).length = data.length + 4 := by
  simp [headerAndData]

/-- **C3.** Framing layout: the framed block sequence is the header
`[blockCountX/64, 1, length % 64, length / 64]` followed by the data, with
the footer block `blockCountX % 64` at linear index `blockCountX - 1` —
padding row 0 with unrendered placeholder cells up to column
`blockCountX - 2` when header+data has fewer than `blockCountX - 1` blocks,
and otherwise splicing the footer in as the `blockCountX`-th block, pushing
later blocks onward. -/
theorem drawColorByteCodeBlock_layout (data : List Pixel) (blockCountX : Nat)
    (h : 1 ≤ blockCountX) :
    drawColorByteCodeBlock data blockCountX =
      (if data.length + 4 < blockCountX - 1 then
        headerAndData data blockCountX ++
          List.replicate (blockCountX - 1 - (data.length + 4)) none
       else (headerAndData data blockCountX).take (blockCountX - 1)) ++
      footerBlock blockCountX ::
        (headerAndData data blockCountX).drop (blockCountX - 1) ∧
    (drawColorByteCodeBlock data blockCountX)[blockCountX - 1]? =
      some (footerBlock blockCountX) := by
  by_cases hc : data.length + 4 < blockCountX - 1
  · rw [drawColorByteCodeBlock_short data blockCountX hc, if_pos hc]
    have hdrop : (headerAndData data blockCountX).drop (blockCountX - 1) = [] := by
      rw [List.drop_eq_nil_iff, headerAndData_length]
      omega
    have hlen : (headerAndData data blockCountX ++
        List.replicate (blockCountX - 1 - (data.length + 4)) none).length =
          blockCountX - 1 := by
      rw [List.length_append, headerAndData_length, List.length_replicate]
      omega
    constructor
    · rw [hdrop]
    · rw [List.getElem?_append_right (le_of_eq hlen), hlen]
      simp
  · rw [drawColorByteCodeBlock_long data blockCountX hc, if_neg hc]
    have hlen : ((headerAndData data blockCountX).take (blockCountX - 1)).length =
        blockCountX - 1 := by
      rw [List.length_take, headerAndData_length]
      omega
    refine ⟨rfl, ?_⟩
    rw [List.getElem?_append_right (le_of_eq hlen), hlen]
    simp

/-- Witness for `drawColorByteCodeBlock_layout` at a 2-pixel payload and
`blockCountX = 8`. -/
theorem drawColorByteCodeBlock_layout_witness :
    1 ≤ 8 ∧ (drawColorByteCodeBlock [(0, 0, 0), (85, 170, 255)] 8)[8 - 1]? =
      some (footerBlock 8) :=
  ⟨by decide, (drawColorByteCodeBlock_layout [(0, 0, 0), (85, 170, 255)] 8 (by decide)).2⟩

/-- **C4.** Frame-then-extract round-trip: framing any data color sequence
with `drawColorByteCodeBlock`, sampling the first `length + 5` framed cells
in order (unrendered placeholder cells read back as an arbitrary background
color `bg`), and stripping the frame with the extraction rule of
`readColorByteCode` recovers exactly the original data — in both the
one-row and the multi-row shape. -/
theorem frame_extract_roundtrip (data : List Pixel) (blockCountX : Nat) (bg : Pixel)
    (h : 5 ≤ blockCountX) :
    extractMainColors
      (((drawColorByteCodeBlock data blockCountX).take (data.length + 5)).map
        (fun o => o.getD bg))
      data.length blockCountX = data := by
  set H4 : List Pixel :=
    [numToColor ((blockCountX / 64 : Nat) : Int), numToColor 1,
     numToColor ((data.length % 64 : Nat) : Int),
     numToColor ((data.length / 64 : Nat) : Int)] with hH4
  have hH4len : H4.length = 4 := by rw [hH4]; rfl
  have hmap : (headerAndData data blockCountX).map (fun o => o.getD bg) =
      H4 ++ data := by
    rw [hH4]
    simp [headerAndData, List.map_map, Function.comp_def]
  by_cases hc : data.length + 4 < blockCountX - 1
  · -- one-row shape with at least one placeholder cell sampled and dropped
    rw [drawColorByteCodeBlock_short data blockCountX hc, List.append_assoc]
    rw [show data.length + 5 = (headerAndData data blockCountX).length + 1
      from by rw [headerAndData_length]]
    rw [List.take_append]
    rw [List.take_append_of_le_length (by rw [List.length_replicate]; omega)]
    rw [List.take_replicate, show min 1 (blockCountX - 1 - (data.length + 4)) = 1
      from by omega, List.replicate_one]
    rw [List.map_append, hmap, List.map_cons, List.map_nil]
    unfold extractMainColors
    rw [if_pos (by omega : data.length + 4 < blockCountX)]
    rw [List.append_assoc]
    rw [List.drop_left' hH4len]
    exact List.take_left' rfl
  · -- the footer is spliced into the sequence
    rw [drawColorByteCodeBlock_long data blockCountX hc]
    have hlentk : ((headerAndData data blockCountX).take (blockCountX - 1)).length =
        blockCountX - 1 := by
      rw [List.length_take, headerAndData_length]
      omega
    have hlenfr : ((headerAndData data blockCountX).take (blockCountX - 1) ++
        footerBlock blockCountX ::
          (headerAndData data blockCountX).drop (blockCountX - 1)).length =
        data.length + 5 := by
      rw [List.length_append, List.length_cons, hlentk, List.length_drop,
        headerAndData_length]
      omega
    rw [List.take_of_length_le (le_of_eq hlenfr)]
    rw [List.map_append, List.map_cons, List.map_take, List.map_drop, hmap]
    by_cases hone : data.length + 4 < blockCountX
    · -- exact fit: the footer sits at column blockCountX - 1 = length + 4
      rw [List.take_of_length_le (by
        rw [List.length_append, hH4len]
        omega)]
      rw [List.drop_eq_nil_iff.mpr (by
        rw [List.length_append, hH4len]
        omega)]
      unfold extractMainColors
      rw [if_pos hone]
      rw [List.append_assoc]
      rw [List.drop_left' hH4len]
      exact List.take_left' rfl
    · -- multi-row shape
      have htk : ((H4 ++ data).take (blockCountX - 1)).length = blockCountX - 1 := by
        rw [List.length_take, List.length_append, hH4len]
        omega
      unfold extractMainColors
      rw [if_neg hone]
      rw [List.take_left' htk]
      rw [drop_cons_append_of_length ((H4 ++ data).take (blockCountX - 1)) _ _
        blockCountX (by rw [htk]; omega)]
      rw [List.drop_take]
      rw [List.drop_left' hH4len]
      rw [drop_append_of_length H4 data (blockCountX - 1) (blockCountX - 5)
        (by rw [hH4len]; omega)]
      rw [show blockCountX - 1 - 4 = blockCountX - 5 from by omega]
      exact List.take_append_drop _ data

/-- Witness for `frame_extract_roundtrip` with `blockCountX = 8` at a
2-pixel payload (one row) and a 20-pixel payload (multi-row). -/
theorem frame_extract_roundtrip_witness :
    (5 ≤ 8) ∧
    extractMainColors
      (((drawColorByteCodeBlock [(0, 0, 0), (255, 170, 85)] 8).take 7).map
        (fun o => o.getD (9, 9, 9)))
      2 8 = [(0, 0, 0), (255, 170, 85)] ∧
    extractMainColors
      (((drawColorByteCodeBlock ((List.range 20).map
          (fun k => numToColor (k : Int))) 8).take 25).map
        (fun o => o.getD (9, 9, 9)))
      20 8 = (List.range 20).map (fun k => numToColor (k : Int)) :=
  ⟨by decide,
   frame_extract_roundtrip [(0, 0, 0), (255, 170, 85)] 8 (9, 9, 9) (by decide),
   frame_extract_roundtrip ((List.range 20).map (fun k => numToColor (k : Int)))
     8 (9, 9, 9) (by decide)⟩
